import Mathlib

/-!
Shallow embedding of the arXiv external-links relation service
(`relations/domain.py`, `relations/services/model.py`,
`relations/services/create.py`, `relations/services/get.py`,
`relations/services/util.py`, `relations/controllers.py`).

Modelling conventions:
  * The SQLAlchemy session plus the two tables (`relations`,
    `active_records`) are modelled by an explicit `DBState`; every mutating
    service function takes a state and returns the committed post-state
    together with the Python return value or the raised exception.  The
    source wraps all session work of one call in a try/commit/rollback
    block, so an exception leaves the committed state as it was: in the
    model every error branch returns the input state unchanged.
  * `datetime.now()` is modelled by an abstract tick `DBState.now`,
    incremented at each committed insertion.
  * Auto-increment primary keys are modelled by `DBState.nextId`.
  * Python is dynamically typed: the domain `Relation` fields `identifier`
    and `supercedes_or_suppresses` hold an `int` in some code paths and a
    `str` in others, so they are modelled with the dynamic value type
    `PyVal`.  The `supercedes_or_suppresses` DB column is declared
    `Integer`, so the `str(relation_id)` written by the services is
    coerced back to an integer by the storage layer (confirmed by the
    repository's own tests); the column is modelled as `Option Nat`.
  * Query `.one()` raises `NoResultFound` for zero rows and
    `MultipleResultsFound` for several; both are modelled by the
    non-singleton branches of a match on the filtered row list.
  * I/O failures of the underlying store are modelled by explicit fault
    flags: `fault` on read paths (any exception other than absence) and
    `commitFault` on the transactional write paths.
-/

/-- `relations.domain.RelationType`: enum of relation types. -/
inductive RelationType
  | ADD
  | EDIT
  | SUPPRESS
deriving DecidableEq

/-- A dynamically typed Python value: the embedding only needs to
distinguish `int` from `str` payloads. -/
inductive PyVal
  | pyInt (n : Int)
  | pyStr (s : String)
deriving DecidableEq

/-- `relations.domain.EPrint`. -/
structure EPrint where
  arxiv_id : String
  version : Int
deriving DecidableEq

/-- `relations.domain.Resource`. -/
structure Resource where
  resource_type : String
  identifier : String
deriving DecidableEq

/-- `relations.domain.Relation`: the core domain named tuple.  `identifier`
and `supercedes_or_suppresses` are `PyVal` because the source returns an
`int` in some paths and a `str` in others. -/
structure Relation where
  identifier : PyVal
  relation_type : RelationType
  e_print : EPrint
  resource : Resource
  description : String
  added_at : Nat
  creator : Option String
  supercedes_or_suppresses : Option PyVal
deriving DecidableEq

/-- A row of the `relations` table (`relations.services.model.RelationDB`).
`added_at` is the abstract clock tick; `supercedes_or_suppresses` is the
`Integer` column (the storage layer coerces the written `str` back). -/
structure RelationDB where
  id : Nat
  rel_type : RelationType
  arxiv_id : String
  arxiv_ver : Int
  resource_type : String
  resource_id : String
  description : String
  added_at : Nat
  creator : Option String
  supercedes_or_suppresses : Option Nat
deriving DecidableEq

/-- A row of the `active_records` table
(`relations.services.model.ActivationDB`). -/
structure ActivationDB where
  id : Nat
  active : Bool
deriving DecidableEq

/-- The committed database state: the two tables, the auto-increment
counter and the clock. -/
structure DBState where
  relations : List RelationDB
  activations : List ActivationDB
  nextId : Nat
  now : Nat
deriving DecidableEq

/-- `relations.services.create.StorageError`. -/
inductive CreateError
  | StorageError
deriving DecidableEq

/-- The exceptions of `relations.services.get`: `NotFoundError` and
`DBLookUpError`. -/
inductive GetError
  | NotFoundError
  | DBLookUpError
deriving DecidableEq

/-- `werkzeug.exceptions.InternalServerError`, the only exception the
controllers raise; the carried description string distinguishes the
failure kinds of the specification (`NotFound`, `InactivePredecessor`,
`LookupFailure`, `StorageFailure`). -/
inductive HTTPException
  | InternalServerError (description : String)
deriving DecidableEq

namespace create

/-- `relations.services.create.create`: builds an ADD `RelationDB` row with
no predecessor, adds it together with an `active = true` activation row,
and commits; on any exception the session is rolled back (`StorageError`,
state unchanged). -/
def create (s : DBState) (commitFault : Bool) (arxiv_id : String)
    (arxiv_ver : Int) (resource_type : String) (resource_id : String)
    (description : String) (creator : Option String) :
    DBState × Except CreateError Relation :=
  let rel_data : RelationDB :=
    { id := s.nextId, rel_type := RelationType.ADD, arxiv_id := arxiv_id,
      arxiv_ver := arxiv_ver, resource_type := resource_type,
      resource_id := resource_id, description := description,
      added_at := s.now, creator := creator,
      supercedes_or_suppresses := none }
  if commitFault then
    (s, Except.error CreateError.StorageError)
  else
    ({ s with
        relations := s.relations ++ [rel_data],
        activations := s.activations ++ [{ id := rel_data.id, active := true }],
        nextId := s.nextId + 1,
        now := s.now + 1 },
     Except.ok
       { identifier := PyVal.pyInt rel_data.id,
         relation_type := RelationType.ADD,
         e_print := { arxiv_id := arxiv_id, version := arxiv_ver },
         resource := { resource_type := resource_type, identifier := resource_id },
         description := description,
         added_at := rel_data.added_at,
         creator := creator,
         supercedes_or_suppresses := none })

/-- `relations.services.create.supercede`: queries the predecessor's
activation row with `.one()` (any exception, absence included, is caught
and re-raised as `StorageError` with rollback), flips it to `false`, adds
an EDIT row referencing the predecessor plus a fresh `active = true`
activation row, and commits. -/
def supercede (s : DBState) (commitFault : Bool) (arxiv_id : String)
    (arxiv_ver : Int) (relation_id : Nat) (resource_type : String)
    (resource_id : String) (description : String) (creator : Option String) :
    DBState × Except CreateError Relation :=
  match s.activations.filter (fun a => a.id == relation_id) with
  | [_] =>
    if commitFault then
      (s, Except.error CreateError.StorageError)
    else
      let rel_data : RelationDB :=
        { id := s.nextId, rel_type := RelationType.EDIT, arxiv_id := arxiv_id,
          arxiv_ver := arxiv_ver, resource_type := resource_type,
          resource_id := resource_id, description := description,
          added_at := s.now, creator := creator,
          supercedes_or_suppresses := some relation_id }
      ({ s with
          relations := s.relations ++ [rel_data],
          activations :=
            (s.activations.map (fun a =>
              if a.id == relation_id then { a with active := false } else a))
            ++ [{ id := rel_data.id, active := true }],
          nextId := s.nextId + 1,
          now := s.now + 1 },
       Except.ok
         { identifier := PyVal.pyInt rel_data.id,
           relation_type := RelationType.EDIT,
           e_print := { arxiv_id := arxiv_id, version := arxiv_ver },
           resource := { resource_type := resource_type, identifier := resource_id },
           description := description,
           added_at := rel_data.added_at,
           creator := creator,
           supercedes_or_suppresses := some (PyVal.pyInt relation_id) })
  | _ => (s, Except.error CreateError.StorageError)

/-- `relations.services.create.suppress`: queries the predecessor relation
row and its activation row with `.one()` (any exception is caught and
re-raised as `StorageError` with rollback), flips the activation to
`false`, adds a SUPPRESS row whose resource fields are copied from the
predecessor row plus a fresh `active = true` activation row, and commits.
The returned `Relation` carries `str(relation_id)` for
`supercedes_or_suppresses` (the raw Python string, not the refreshed
column value).  No resource parameters are accepted. -/
def suppress (s : DBState) (commitFault : Bool) (arxiv_id : String)
    (arxiv_ver : Int) (relation_id : Nat) (description : String)
    (creator : Option String) :
    DBState × Except CreateError Relation :=
  match s.relations.filter (fun r => r.id == relation_id) with
  | [prev_rel] =>
    match s.activations.filter (fun a => a.id == relation_id) with
    | [_] =>
      if commitFault then
        (s, Except.error CreateError.StorageError)
      else
        let rel_data : RelationDB :=
          { id := s.nextId, rel_type := RelationType.SUPPRESS,
            arxiv_id := arxiv_id, arxiv_ver := arxiv_ver,
            resource_type := prev_rel.resource_type,
            resource_id := prev_rel.resource_id,
            description := description, added_at := s.now,
            creator := creator,
            supercedes_or_suppresses := some relation_id }
        ({ s with
            relations := s.relations ++ [rel_data],
            activations :=
              (s.activations.map (fun a =>
                if a.id == relation_id then { a with active := false } else a))
              ++ [{ id := rel_data.id, active := true }],
            nextId := s.nextId + 1,
            now := s.now + 1 },
         Except.ok
           { identifier := PyVal.pyInt rel_data.id,
             relation_type := RelationType.SUPPRESS,
             e_print := { arxiv_id := arxiv_id, version := arxiv_ver },
             resource := { resource_type := rel_data.resource_type,
                           identifier := rel_data.resource_id },
             description := description,
             added_at := rel_data.added_at,
             creator := creator,
             supercedes_or_suppresses := some (PyVal.pyStr (toString relation_id)) })
    | _ => (s, Except.error CreateError.StorageError)
  | _ => (s, Except.error CreateError.StorageError)

end create

namespace get

/-- `relations.services.get.relation_from_DB`: row-to-domain converter.
Note the source passes `rel_data.id` (an `int`) for `identifier` without a
`str(...)` conversion. -/
def relation_from_DB (rel_data : RelationDB) : Relation :=
  { identifier := PyVal.pyInt rel_data.id,
    relation_type := rel_data.rel_type,
    e_print := { arxiv_id := rel_data.arxiv_id, version := rel_data.arxiv_ver },
    resource := { resource_type := rel_data.resource_type,
                  identifier := rel_data.resource_id },
    description := rel_data.description,
    added_at := rel_data.added_at,
    creator := rel_data.creator,
    supercedes_or_suppresses :=
      rel_data.supercedes_or_suppresses.map (fun n => PyVal.pyInt (Int.ofNat n)) }

/-- `relations.services.get.from_id`: `.one()` lookup by primary key;
`NoResultFound` becomes `NotFoundError`, any other exception (a fault, or
`MultipleResultsFound`) becomes `DBLookUpError`. -/
def from_id (s : DBState) (fault : Bool) (id : Nat) : Except GetError Relation :=
  if fault then Except.error GetError.DBLookUpError
  else
    match s.relations.filter (fun r => r.id == id) with
    | [] => Except.error GetError.NotFoundError
    | [rel_data] => Except.ok (relation_from_DB rel_data)
    | _ => Except.error GetError.DBLookUpError

/-- `relations.services.get.from_e_print`: when `active_only`, the query
joins `relations` with `active_records` on equal ids and keeps the rows
whose activation flag is set; since the activation id is a primary key the
join contributes at most one row per relation, modelled by an existence
test over the activation table.  When not `active_only`, all rows of the
e-print are returned.  Each row is converted with `relation_from_DB`. -/
def from_e_print (s : DBState) (fault : Bool) (arxiv_id : String)
    (arxiv_ver : Int) (active_only : Bool) : Except GetError (List Relation) :=
  if fault then Except.error GetError.DBLookUpError
  else if active_only then
    Except.ok
      ((s.relations.filter (fun r =>
          r.arxiv_id == arxiv_id && r.arxiv_ver == arxiv_ver &&
          s.activations.any (fun a => a.id == r.id && a.active))).map
        relation_from_DB)
  else
    Except.ok
      ((s.relations.filter (fun r =>
          r.arxiv_id == arxiv_id && r.arxiv_ver == arxiv_ver)).map
        relation_from_DB)

/-- Modelled from the spec: `is_active` is imported by
`relations.controllers` from `relations.services.get`, but its definition
is absent from the source tree.  Spec section 4.2: "isActive(id) -> bool:
fails with NotFound if unknown, LookupFailure on I/O error distinct from
absence", delegating to the Activation Index and returning its boolean
active flag.  `LookupFailure` is `DBLookUpError`, the lookup-failure
exception of the same module. -/
def is_active (s : DBState) (fault : Bool) (id : Nat) : Except GetError Bool :=
  if fault then Except.error GetError.DBLookUpError
  else
    match s.activations.filter (fun a => a.id == id) with
    | [] => Except.error GetError.NotFoundError
    | [a] => Except.ok a.active
    | _ => Except.error GetError.DBLookUpError

end get

namespace util

/-- `relations.services.util.relation_from_DB`: same converter as
`get.relation_from_DB` except that it converts the identifier with
`str(rel_data.id)`. -/
def relation_from_DB (rel_data : RelationDB) : Relation :=
  { identifier := PyVal.pyStr (toString rel_data.id),
    relation_type := rel_data.rel_type,
    e_print := { arxiv_id := rel_data.arxiv_id, version := rel_data.arxiv_ver },
    resource := { resource_type := rel_data.resource_type,
                  identifier := rel_data.resource_id },
    description := rel_data.description,
    added_at := rel_data.added_at,
    creator := rel_data.creator,
    supercedes_or_suppresses :=
      rel_data.supercedes_or_suppresses.map (fun n => PyVal.pyInt (Int.ofNat n)) }

end util

namespace controllers

/-- `relations.controllers.create_new`: calls the create service and maps
`StorageError` to an `InternalServerError`. -/
def create_new (s : DBState) (commitFault : Bool) (arxiv_id_str : String)
    (arxiv_ver : Int) (resource_type : String) (resource_id : String)
    (description : String) (creator : Option String) :
    DBState × Except HTTPException Relation :=
  match create.create s commitFault arxiv_id_str arxiv_ver resource_type
      resource_id description creator with
  | (s2, Except.error CreateError.StorageError) =>
    (s2, Except.error (HTTPException.InternalServerError "An error occured in storage"))
  | (s2, Except.ok rel) => (s2, Except.ok rel)

/-- `relations.controllers.supercede`: checks `is_active` on the previous
relation id before calling the service; an inactive predecessor raises
`InternalServerError` with the "already inactive" description (uncaught by
the handlers below it), `NotFoundError` and `DBLookUpError` from the check
are mapped to their descriptions, and a service `StorageError` to the
storage description. -/
def supercede (s : DBState) (lookupFault : Bool) (commitFault : Bool)
    (arxiv_id_str : String) (arxiv_ver : Int) (relation_id : Nat)
    (resource_type : String) (resource_id : String) (description : String)
    (creator : Option String) :
    DBState × Except HTTPException Relation :=
  match get.is_active s lookupFault relation_id with
  | Except.error GetError.NotFoundError =>
    (s, Except.error (HTTPException.InternalServerError
          "The previous relation cannot be found"))
  | Except.error GetError.DBLookUpError =>
    (s, Except.error (HTTPException.InternalServerError
          "A failure occured in looking up the previous relation"))
  | Except.ok false =>
    (s, Except.error (HTTPException.InternalServerError
          "The previous relation is already inactive."))
  | Except.ok true =>
    match create.supercede s commitFault arxiv_id_str arxiv_ver relation_id
        resource_type resource_id description creator with
    | (s2, Except.error CreateError.StorageError) =>
      (s2, Except.error (HTTPException.InternalServerError
            "An error occured in storage"))
    | (s2, Except.ok rel) => (s2, Except.ok rel)

/-- `relations.controllers.suppress`: first retrieves the previous relation
with `from_id` (it must exist), then checks `is_active`, then calls the
suppress service; failures are mapped exactly as in the supercede
controller. -/
def suppress (s : DBState) (lookupFault : Bool) (commitFault : Bool)
    (arxiv_id_str : String) (arxiv_ver : Int) (relation_id : Nat)
    (description : String) (creator : Option String) :
    DBState × Except HTTPException Relation :=
  match get.from_id s lookupFault relation_id with
  | Except.error GetError.NotFoundError =>
    (s, Except.error (HTTPException.InternalServerError
          "The previous relation cannot be found"))
  | Except.error GetError.DBLookUpError =>
    (s, Except.error (HTTPException.InternalServerError
          "A failure occured in looking up the previous relation"))
  | Except.ok _ =>
    match get.is_active s lookupFault relation_id with
    | Except.error GetError.NotFoundError =>
      (s, Except.error (HTTPException.InternalServerError
            "The previous relation cannot be found"))
    | Except.error GetError.DBLookUpError =>
      (s, Except.error (HTTPException.InternalServerError
            "A failure occured in looking up the previous relation"))
    | Except.ok false =>
      (s, Except.error (HTTPException.InternalServerError
            "The previous relation is already inactive."))
    | Except.ok true =>
      match create.suppress s commitFault arxiv_id_str arxiv_ver relation_id
          description creator with
      | (s2, Except.error CreateError.StorageError) =>
        (s2, Except.error (HTTPException.InternalServerError
              "An error occured in storage"))
      | (s2, Except.ok rel) => (s2, Except.ok rel)

end controllers

/-! Concrete states used by the witness and counterexample theorems. -/

/-- The empty store: no rows, auto-increment counter at 1 as in SQLite. -/
def dbEmpty : DBState := { relations := [], activations := [], nextId := 1, now := 0 }

/-- A sample committed relation row (the fixture of the repository's own
service tests). -/
def row1 : RelationDB :=
  { id := 1, rel_type := RelationType.ADD, arxiv_id := "1234.78901",
    arxiv_ver := 2, resource_type := "DOI",
    resource_id := "10.1023/hage.2018.7.11", description := "test",
    added_at := 0, creator := some "tester",
    supercedes_or_suppresses := none }

/-- A store holding `row1` with an active activation record. -/
def dbActive : DBState :=
  { relations := [row1], activations := [{ id := 1, active := true }],
    nextId := 2, now := 1 }

/-- A store holding `row1` with its activation record already flipped to
inactive. -/
def dbInactive : DBState :=
  { relations := [row1], activations := [{ id := 1, active := false }],
    nextId := 2, now := 1 }

/-! Claims. -/

/-- Claim C1: every controller supercede and suppress call checks the
predecessor's existence (failing with the not-found error) and its current
activation status (failing with the already-inactive error, the
`InactivePredecessor` of the specification) before any write: with a
predecessor that exists but is inactive both calls fail with the
already-inactive error and return the store unchanged (no new relation, no
flipped activation record), and with a predecessor that does not exist at
all both calls fail with the not-found error, again with the store
unchanged. -/
theorem supersede_suppress_check_before_write
    (s t : DBState) (cf : Bool) (aid : String) (ver : Int) (pid qid : Nat)
    (rt rid desc : String) (cr : Option String)
    (r : RelationDB) (a : ActivationDB)
    (hrel : s.relations.filter (fun x => x.id == pid) = [r])
    (hact : s.activations.filter (fun x => x.id == pid) = [a])
    (hina : a.active = false)
    (trel : t.relations.filter (fun x => x.id == qid) = [])
    (tact : t.activations.filter (fun x => x.id == qid) = []) :
    controllers.supercede s false cf aid ver pid rt rid desc cr
      = (s, Except.error (HTTPException.InternalServerError
              "The previous relation is already inactive."))
    ∧ controllers.suppress s false cf aid ver pid desc cr
      = (s, Except.error (HTTPException.InternalServerError
              "The previous relation is already inactive."))
    ∧ controllers.supercede t false cf aid ver qid rt rid desc cr
      = (t, Except.error (HTTPException.InternalServerError
              "The previous relation cannot be found"))
    ∧ controllers.suppress t false cf aid ver qid desc cr
      = (t, Except.error (HTTPException.InternalServerError
              "The previous relation cannot be found")) := by
  refine ⟨?_, ?_, ?_, ?_⟩
  · simp [controllers.supercede, get.is_active, hact, hina]
  · simp [controllers.suppress, get.is_active, get.from_id, hrel, hact, hina]
  · simp [controllers.supercede, get.is_active, tact]
  · simp [controllers.suppress, get.is_active, get.from_id, trel, tact]

/-- Witness for C1 at concrete stores. -/
theorem supersede_suppress_check_before_write_witness :
    controllers.supercede dbInactive false false "1234.78901" 2 1 "DOI" "x" "d" none
      = (dbInactive, Except.error (HTTPException.InternalServerError
              "The previous relation is already inactive."))
    ∧ controllers.suppress dbInactive false false "1234.78901" 2 1 "d" none
      = (dbInactive, Except.error (HTTPException.InternalServerError
              "The previous relation is already inactive."))
    ∧ controllers.supercede dbEmpty false false "1234.78901" 2 1 "DOI" "x" "d" none
      = (dbEmpty, Except.error (HTTPException.InternalServerError
              "The previous relation cannot be found"))
    ∧ controllers.suppress dbEmpty false false "1234.78901" 2 1 "d" none
      = (dbEmpty, Except.error (HTTPException.InternalServerError
              "The previous relation cannot be found")) :=
  supersede_suppress_check_before_write dbInactive dbEmpty false "1234.78901" 2 1 1
    "DOI" "x" "d" none row1 { id := 1, active := false }
    (by decide) (by decide) rfl (by decide) (by decide)

/-- Claim C2: supercede and suppress against an identifier for which no
relation exists fail with the not-found error and perform no store
mutation (the returned store is the input store: no new relation row, no
new or flipped activation row); and whenever the transactional write of
any of the three mutating services fails (modelled by `commitFault`), the
transaction is rolled back and no partial state survives — each service
returns the `StorageError` exception together with the untouched input
store, for arbitrary stores and arguments. -/
theorem notfound_and_rollback_no_mutation
    (s t : DBState) (cf : Bool) (aid : String) (ver : Int) (pid qid : Nat)
    (rt rid desc : String) (cr : Option String)
    (hrel : s.relations.filter (fun x => x.id == pid) = [])
    (hact : s.activations.filter (fun x => x.id == pid) = []) :
    controllers.supercede s false cf aid ver pid rt rid desc cr
      = (s, Except.error (HTTPException.InternalServerError
              "The previous relation cannot be found"))
    ∧ controllers.suppress s false cf aid ver pid desc cr
      = (s, Except.error (HTTPException.InternalServerError
              "The previous relation cannot be found"))
    ∧ create.create t true aid ver rt rid desc cr
      = (t, Except.error CreateError.StorageError)
    ∧ create.supercede t true aid ver qid rt rid desc cr
      = (t, Except.error CreateError.StorageError)
    ∧ create.suppress t true aid ver qid desc cr
      = (t, Except.error CreateError.StorageError) := by
  refine ⟨?_, ?_, ?_, ?_, ?_⟩
  · simp [controllers.supercede, get.is_active, hact]
  · simp [controllers.suppress, get.is_active, get.from_id, hrel, hact]
  · simp [create.create]
  · unfold create.supercede
    split <;> simp
  · unfold create.suppress
    split
    · split <;> simp
    · simp

/-- Witness for C2 at concrete stores. -/
theorem notfound_and_rollback_no_mutation_witness :
    controllers.supercede dbEmpty false true "1234.56789" 1 7 "DOI" "x" "d" none
      = (dbEmpty, Except.error (HTTPException.InternalServerError
              "The previous relation cannot be found"))
    ∧ controllers.suppress dbEmpty false true "1234.56789" 1 7 "d" none
      = (dbEmpty, Except.error (HTTPException.InternalServerError
              "The previous relation cannot be found"))
    ∧ create.create dbActive true "1234.56789" 1 "DOI" "x" "d" none
      = (dbActive, Except.error CreateError.StorageError)
    ∧ create.supercede dbActive true "1234.56789" 1 1 "DOI" "x" "d" none
      = (dbActive, Except.error CreateError.StorageError)
    ∧ create.suppress dbActive true "1234.56789" 1 1 "d" none
      = (dbActive, Except.error CreateError.StorageError) :=
  notfound_and_rollback_no_mutation dbEmpty dbActive true "1234.56789" 1 7 1
    "DOI" "x" "d" none (by decide) (by decide)

/-- Claim C3: every valid create call (non-empty resource type and resource
identifier) returns a relation with relation type ADD and a null
predecessor reference, creates an `active = true` activation record for it
in the same operation, and `is_active` on its identifier immediately
reports `true`.  The freshness hypothesis states that the store has no
activation row under the auto-increment id about to be assigned, which the
storage engine guarantees (primary keys are never reused). -/
theorem create_returns_add_and_active
    (s : DBState) (aid : String) (ver : Int) (rt rid desc : String)
    (cr : Option String) (hrt : rt ≠ "") (hrid : rid ≠ "")
    (hfresh : s.activations.filter (fun a => a.id == s.nextId) = []) :
    ∃ s2 rel, create.create s false aid ver rt rid desc cr = (s2, Except.ok rel)
      ∧ rel.relation_type = RelationType.ADD
      ∧ rel.supercedes_or_suppresses = none
      ∧ rel.identifier = PyVal.pyInt s.nextId
      ∧ ({ id := s.nextId, active := true } : ActivationDB) ∈ s2.activations
      ∧ get.is_active s2 false s.nextId = Except.ok true := by
  refine ⟨_, _, rfl, rfl, rfl, rfl, ?_, ?_⟩
  · simp [create.create]
  · simp [create.create, get.is_active, List.filter_append, hfresh]

/-- Witness for C3 at the empty store. -/
theorem create_returns_add_and_active_witness :
    "DOI" ≠ "" ∧ "10.1023/x" ≠ "" ∧
    ∃ s2 rel,
      create.create dbEmpty false "1234.56789" 1 "DOI" "10.1023/x" "d" none
        = (s2, Except.ok rel)
      ∧ rel.relation_type = RelationType.ADD
      ∧ rel.supercedes_or_suppresses = none
      ∧ rel.identifier = PyVal.pyInt dbEmpty.nextId
      ∧ ({ id := dbEmpty.nextId, active := true } : ActivationDB) ∈ s2.activations
      ∧ get.is_active s2 false dbEmpty.nextId = Except.ok true :=
  ⟨by decide, by decide,
   create_returns_add_and_active dbEmpty "1234.56789" 1 "DOI" "10.1023/x" "d" none
     (by decide) (by decide) (by decide)⟩

/-- Claim C4: every successful suppress call copies the resource (resource
type and resource identifier) of the new relation verbatim from the
predecessor row, and the new relation's type is SUPPRESS.  No resource
fields are accepted from the caller: mirroring the source, the suppress
service takes no resource parameters at all, so the copied resource cannot
depend on caller-supplied resource data. -/
theorem suppress_copies_predecessor_resource
    (s : DBState) (aid : String) (ver : Int) (pid : Nat) (desc : String)
    (cr : Option String) (prev : RelationDB) (a : ActivationDB)
    (hrel : s.relations.filter (fun x => x.id == pid) = [prev])
    (hact : s.activations.filter (fun x => x.id == pid) = [a]) :
    ∃ s2 rel, create.suppress s false aid ver pid desc cr = (s2, Except.ok rel)
      ∧ rel.resource = { resource_type := prev.resource_type,
                         identifier := prev.resource_id }
      ∧ rel.relation_type = RelationType.SUPPRESS := by
  unfold create.suppress
  rw [hrel, hact]
  exact ⟨_, _, rfl, rfl, rfl⟩

/-- Witness for C4 at a store with one active relation. -/
theorem suppress_copies_predecessor_resource_witness :
    ∃ s2 rel, create.suppress dbActive false "1234.78901" 2 1 "d" none
        = (s2, Except.ok rel)
      ∧ rel.resource = { resource_type := row1.resource_type,
                         identifier := row1.resource_id }
      ∧ rel.relation_type = RelationType.SUPPRESS :=
  suppress_copies_predecessor_resource dbActive "1234.78901" 2 1 "d" none
    row1 { id := 1, active := true } (by decide) (by decide)

/-- A second sample row: an EDIT relation superseding `row1`. -/
def row2 : RelationDB :=
  { id := 2, rel_type := RelationType.EDIT, arxiv_id := "1234.78901",
    arxiv_ver := 2, resource_type := "DOI",
    resource_id := "10.1023/hage.2018.7.13", description := "test",
    added_at := 1, creator := some "tester",
    supercedes_or_suppresses := some 1 }

/-- A store holding the chain `row1` (superseded, inactive) and `row2`
(its successor, active). -/
def dbChain : DBState :=
  { relations := [row1, row2],
    activations := [{ id := 1, active := false }, { id := 2, active := true }],
    nextId := 3, now := 2 }

/-- Claim C5: listing the relations of an e-print with `active_only = true`
returns exactly those relations for that e-print that have no successor —
stated via the claim's own equivalence between "has no successor" and
"activation record is true", which is the hypothesis `hinv` (the invariant
the lineage manager maintains) — and listing with `active_only = false`
returns all relations for that e-print regardless of status. -/
theorem from_e_print_active_filter
    (s : DBState) (aid : String) (ver : Int)
    (hinv : ∀ r ∈ s.relations,
      s.activations.any (fun a => a.id == r.id && a.active)
        = !(s.relations.any (fun r2 => r2.supercedes_or_suppresses == some r.id))) :
    get.from_e_print s false aid ver true
      = Except.ok ((s.relations.filter (fun r =>
          r.arxiv_id == aid && r.arxiv_ver == ver &&
          !(s.relations.any (fun r2 =>
              r2.supercedes_or_suppresses == some r.id)))).map
            get.relation_from_DB)
    ∧ get.from_e_print s false aid ver false
      = Except.ok ((s.relations.filter (fun r =>
          r.arxiv_id == aid && r.arxiv_ver == ver)).map
            get.relation_from_DB) := by
  constructor
  · have hf : s.relations.filter (fun r =>
        r.arxiv_id == aid && r.arxiv_ver == ver &&
        s.activations.any (fun a => a.id == r.id && a.active))
      = s.relations.filter (fun r =>
        r.arxiv_id == aid && r.arxiv_ver == ver &&
        !(s.relations.any (fun r2 =>
            r2.supercedes_or_suppresses == some r.id))) :=
      List.filter_congr (fun r hr => by rw [hinv r hr])
    simp [get.from_e_print, hf]
  · rfl

/-- Witness for C5 at a store with a superseded relation and its active
successor. -/
theorem from_e_print_active_filter_witness :
    get.from_e_print dbChain false "1234.78901" 2 true
      = Except.ok ((dbChain.relations.filter (fun r =>
          r.arxiv_id == "1234.78901" && r.arxiv_ver == 2 &&
          !(dbChain.relations.any (fun r2 =>
              r2.supercedes_or_suppresses == some r.id)))).map
            get.relation_from_DB)
    ∧ get.from_e_print dbChain false "1234.78901" 2 false
      = Except.ok ((dbChain.relations.filter (fun r =>
          r.arxiv_id == "1234.78901" && r.arxiv_ver == 2)).map
            get.relation_from_DB) :=
  from_e_print_active_filter dbChain "1234.78901" 2 (by decide)

/-- Claim C6: round-trip — after a successful create call, looking the new
relation up by the identifier create returned (`from_id`, the `getById` of
the specification) yields a relation equal in all fields to the relation
returned by create.  The freshness hypothesis states that the store has no
relation row under the auto-increment id about to be assigned. -/
theorem create_from_id_roundtrip
    (s : DBState) (aid : String) (ver : Int) (rt rid desc : String)
    (cr : Option String)
    (hfresh : s.relations.filter (fun r => r.id == s.nextId) = []) :
    ∃ s2 rel, create.create s false aid ver rt rid desc cr = (s2, Except.ok rel)
      ∧ rel.identifier = PyVal.pyInt s.nextId
      ∧ get.from_id s2 false s.nextId = Except.ok rel := by
  refine ⟨_, _, rfl, rfl, ?_⟩
  simp [create.create, get.from_id, List.filter_append, hfresh,
    get.relation_from_DB]

/-- Claim C7: the `is_active` operation (modelled from the spec, since the
source imports it from `relations.services.get` without defining it)
delegates to the activation table and returns its boolean active flag,
fails with `NotFoundError` when the identifier has no activation record,
and fails with `DBLookUpError` (the spec's `LookupFailure`) on an I/O
error distinct from absence. -/
theorem is_active_delegates_to_activation_index
    (s1 s2 : DBState) (id1 id2 : Nat) (a : ActivationDB)
    (h1 : s1.activations.filter (fun x => x.id == id1) = [])
    (h2 : s2.activations.filter (fun x => x.id == id2) = [a]) :
    get.is_active s1 false id1 = Except.error GetError.NotFoundError
    ∧ get.is_active s2 false id2 = Except.ok a.active
    ∧ ∀ s id, get.is_active s true id = Except.error GetError.DBLookUpError := by
  refine ⟨?_, ?_, ?_⟩
  · simp [get.is_active, h1]
  · simp [get.is_active, h2]
  · intro s id
    simp [get.is_active]

/-- Witness for C7 at concrete stores. -/
theorem is_active_delegates_to_activation_index_witness :
    get.is_active dbEmpty false 1 = Except.error GetError.NotFoundError
    ∧ get.is_active dbActive false 1
        = Except.ok ({ id := 1, active := true } : ActivationDB).active
    ∧ ∀ s id, get.is_active s true id = Except.error GetError.DBLookUpError :=
  is_active_delegates_to_activation_index dbEmpty dbActive 1 1
    { id := 1, active := true } (by decide) (by decide)

/-- The C8 invariant: a stored relation's predecessor reference is null iff
its relation type is ADD. -/
def PredInv (s : DBState) : Prop :=
  ∀ r ∈ s.relations,
    (r.supercedes_or_suppresses = none ↔ r.rel_type = RelationType.ADD)

/-- Claim C8: the predecessor-null-iff-ADD invariant is preserved by every
operation — create stores a null predecessor with type ADD, supercede and
suppress store non-null predecessors with types EDIT and SUPPRESS
respectively, and the error paths leave the store untouched — for every
store satisfying the invariant, every fault flag and all arguments. -/
theorem pred_null_iff_add_preserved
    (s : DBState) (cf : Bool) (aid : String) (ver : Int) (pid : Nat)
    (rt rid desc : String) (cr : Option String) (h : PredInv s) :
    PredInv (create.create s cf aid ver rt rid desc cr).1
    ∧ PredInv (create.supercede s cf aid ver pid rt rid desc cr).1
    ∧ PredInv (create.suppress s cf aid ver pid desc cr).1 := by
  refine ⟨?_, ?_, ?_⟩
  · cases cf
    · intro r hr
      simp [create.create] at hr
      rcases hr with hr | hr
      · exact h r hr
      · subst hr
        simp
    · simpa [create.create] using h
  · unfold create.supercede
    split
    · cases cf
      · intro r hr
        simp at hr
        rcases hr with hr | hr
        · exact h r hr
        · subst hr
          simp
      · simpa using h
    · simpa using h
  · unfold create.suppress
    split
    · split
      · cases cf
        · intro r hr
          simp at hr
          rcases hr with hr | hr
          · exact h r hr
          · subst hr
            simp
        · simpa using h
      · simpa using h
    · simpa using h

/-- Witness for C8 at a store with one active ADD relation. -/
theorem pred_null_iff_add_preserved_witness :
    PredInv dbActive
    ∧ (PredInv (create.create dbActive false "1234.56789" 1 "DOI" "x" "d" none).1
       ∧ PredInv (create.supercede dbActive false "1234.56789" 1 1 "DOI" "x" "d" none).1
       ∧ PredInv (create.suppress dbActive false "1234.56789" 1 1 "d" none).1) :=
  ⟨by unfold PredInv; decide,
   pred_null_iff_add_preserved dbActive false "1234.56789" 1 1 "DOI" "x" "d" none
     (by unfold PredInv; decide)⟩

/-- Witness for C6 at the empty store. -/
theorem create_from_id_roundtrip_witness :
    ∃ s2 rel,
      create.create dbEmpty false "1234.56789" 1 "DOI" "10.1023/x" "d" none
        = (s2, Except.ok rel)
      ∧ rel.identifier = PyVal.pyInt dbEmpty.nextId
      ∧ get.from_id s2 false dbEmpty.nextId = Except.ok rel :=
  create_from_id_roundtrip dbEmpty "1234.56789" 1 "DOI" "10.1023/x" "d" none
    (by decide)

/-- The store after a controller create call on the empty store: one ADD
relation (id 1), active. -/
def cexS1 : DBState :=
  (controllers.create_new dbEmpty false "1234.56789" 1 "DOI" "10.1/x" "d" none).1

/-- The store after a controller suppress call on `cexS1`: relation 1 is
inactive, and the suppressing relation (id 2, type SUPPRESS) is active. -/
def cexS2 : DBState :=
  (controllers.suppress cexS1 false false "1234.56789" 1 1 "d" none).1

/-- A controller supercede call against the SUPPRESS relation id 2. -/
def cexRes : DBState × Except HTTPException Relation :=
  controllers.supercede cexS2 false false "1234.56789" 1 2 "DOI" "10.1/y" "d" none

/-- Counterexample to claim C9: starting from the empty store, create
relation 1, suppress it (producing the SUPPRESS relation 2, which the code
leaves active), then supercede relation 2.  The claim says this call must
be rejected; instead it succeeds, and the resulting store contains a
relation (type EDIT) whose predecessor reference names the SUPPRESS
relation 2 — suppression is not terminal for its lineage. -/
theorem suppress_not_terminal_cex :
    (cexS2.relations.filter (fun r => r.id == 2)).map (fun r => r.rel_type)
      = [RelationType.SUPPRESS]
    ∧ cexRes.2.toOption.map (fun r => (r.relation_type, r.supercedes_or_suppresses))
        = some (RelationType.EDIT, some (PyVal.pyInt 2))
    ∧ (cexRes.1.relations.filter (fun r =>
        r.supercedes_or_suppresses == some 2)).map (fun r => r.rel_type)
      = [RelationType.EDIT] := by
  decide

/-- Claim C9 as amended: the controllers reject only a missing or inactive
predecessor; since a suppressing relation is itself created active, a
SUPPRESS relation can be referenced as a predecessor and suppression is
not terminal.  What does hold is that every successful supercede or
suppress call had a predecessor that was active (per the activation table)
in the pre-state, regardless of its relation type. -/
theorem successor_requires_active_predecessor
    (s t : DBState) (lf cf lf2 cf2 : Bool) (aid aid2 : String)
    (ver ver2 : Int) (pid qid : Nat) (rt rid desc desc2 : String)
    (cr cr2 : Option String)
    (h1 : (controllers.supercede s lf cf aid ver pid rt rid desc cr).2.isOk = true)
    (h2 : (controllers.suppress t lf2 cf2 aid2 ver2 qid desc2 cr2).2.isOk = true) :
    get.is_active s false pid = Except.ok true
    ∧ get.is_active t false qid = Except.ok true := by
  constructor
  · cases lf
    · rcases hia : get.is_active s false pid with e | b
      · exfalso
        unfold controllers.supercede at h1
        rw [hia] at h1
        cases e <;> simp [Except.isOk, Except.toBool] at h1
      · cases b
        · exfalso
          unfold controllers.supercede at h1
          rw [hia] at h1
          simp [Except.isOk, Except.toBool] at h1
        · exact rfl
    · exfalso
      unfold controllers.supercede at h1
      simp [get.is_active, Except.isOk, Except.toBool] at h1
  · cases lf2
    · rcases hfi : get.from_id t false qid with e | rel0
      · exfalso
        unfold controllers.suppress at h2
        rw [hfi] at h2
        cases e <;> simp [Except.isOk, Except.toBool] at h2
      · rcases hia : get.is_active t false qid with e | b
        · exfalso
          unfold controllers.suppress at h2
          rw [hfi, hia] at h2
          cases e <;> simp [Except.isOk, Except.toBool] at h2
        · cases b
          · exfalso
            unfold controllers.suppress at h2
            rw [hfi, hia] at h2
            simp [Except.isOk, Except.toBool] at h2
          · exact rfl
    · exfalso
      unfold controllers.suppress at h2
      simp [get.from_id, Except.isOk, Except.toBool] at h2

/-- Witness for the amended C9 at a store with one active relation. -/
theorem successor_requires_active_predecessor_witness :
    (controllers.supercede dbActive false false "1234.78901" 2 1 "DOI" "y" "d" none).2.isOk
      = true
    ∧ (controllers.suppress dbActive false false "1234.78901" 2 1 "d" none).2.isOk
      = true
    ∧ (get.is_active dbActive false 1 = Except.ok true
       ∧ get.is_active dbActive false 1 = Except.ok true) :=
  ⟨by decide, by decide,
   successor_requires_active_predecessor dbActive dbActive false false false false
     "1234.78901" "1234.78901" 2 2 1 1 "DOI" "y" "d" "d" none none
     (by decide) (by decide)⟩

/-- Claim C10: the two row-to-domain converters disagree.  On the test
fixture row (`row1`, id 1) `get.relation_from_DB` yields the raw integer 1
for `identifier` while `util.relation_from_DB` yields the string "1", so
the two converters do not return equal `Relation` values.  The domain
declares `RelationID = str` and the repository's own test
(`test_get_a_relation_that_exists`) asserts `from_id(1).identifier == '1'`,
so the missing `str(...)` conversion in `get.relation_from_DB` is a slip
in the code, not in the claim. -/
theorem relation_from_DB_converters_disagree :
    get.relation_from_DB row1 ≠ util.relation_from_DB row1
    ∧ (get.relation_from_DB row1).identifier = PyVal.pyInt 1
    ∧ (util.relation_from_DB row1).identifier = PyVal.pyStr "1" := by
  decide
